import Mathlib

/-!
Shallow embedding of the resilient AI-call orchestration layer of the
Simulated Souls repository (src/services/geminiService.ts together with the
image relay in src/proxy-server/server.js), and proofs about it.

Conventions of the embedding:
* JavaScript exceptions are modelled with `Except String`; a function that
  the source wraps in try/catch and converts to `null` becomes a total
  function returning `Option`.
* `Date.now()` is modelled by an explicit integer clock value threaded into
  each operation; within one logical call the clock readings are supplied as
  parameters (one for the primary call, one for the nested fallback call).
* `Math.random()` is modelled as a stream `rnd : Nat → ℚ` of values in
  `[0, 1)` together with a running index, shared between the primary and the
  fallback retry loops exactly as the global generator is in JavaScript.
* The provider (`chat.sendMessage`) is modelled as an oracle `Nat → CallOutcome`
  per chat session: the outcome of the i-th sendMessage call on that session.
* Numbers are `ℚ` (the claims under verification do not depend on binary
  floating-point rounding).
-/

namespace SimulatedSouls

/-- JSON values as produced by `JSON.parse`. Objects keep their fields in
source order; duplicate keys are resolved by `getField` taking the last
occurrence, as `JSON.parse` does. -/
inductive JsonVal where
  | null
  | bool (b : Bool)
  | num (q : ℚ)
  | str (s : String)
  | arr (elems : List JsonVal)
  | obj (fields : List (String × JsonVal))

/-- Left brace character (written via its code point). -/
def braceL : Char := Char.ofNat 123

/-- Right brace character (written via its code point). -/
def braceR : Char := Char.ofNat 125

/-- Double-quote character. -/
def quoteChar : Char := Char.ofNat 34

/-- JSON insignificant whitespace (ECMA-404): space, tab, line feed, carriage return. -/
def jsonWs (c : Char) : Bool :=
  c = ' ' || c = '\t' || c = '\n' || c = '\r'

/-- Drop leading JSON whitespace. -/
def skipWs : List Char → List Char
  | [] => []
  | c :: cs => if jsonWs c then skipWs cs else c :: cs

/-- Does the first list start with the second one? -/
def listStartsWith : List Char → List Char → Bool
  | _, [] => true
  | [], _ :: _ => false
  | a :: as, b :: bs => a = b && listStartsWith as bs

/-- Does the first list contain the second as a contiguous segment? -/
def containsSeg : List Char → List Char → Bool
  | [], sub => sub.isEmpty
  | l@(_ :: t), sub => listStartsWith l sub || containsSeg t sub

/-- JavaScript `String.prototype.includes`. -/
def strContains (s sub : String) : Bool :=
  containsSeg s.toList sub.toList

/-- Whitespace for JavaScript `String.prototype.trim` (the code points the
payloads at issue can contain). -/
def jsWsChar (c : Char) : Bool :=
  c = ' ' || c = '\t' || c = '\n' || c = '\r' || c = Char.ofNat 11 || c = Char.ofNat 12 || c = Char.ofNat 160

/-- Drop leading whitespace from a character list. -/
def dropWsLeft : List Char → List Char
  | [] => []
  | c :: cs => if jsWsChar c then dropWsLeft cs else c :: cs

/-- JavaScript `String.prototype.trim`. -/
def jsTrim (s : String) : String :=
  String.mk (dropWsLeft ((dropWsLeft s.toList.reverse).reverse))

/-- JavaScript `String.prototype.startsWith`. -/
def jsStartsWith (s p : String) : Bool :=
  listStartsWith s.toList p.toList

/-- JavaScript `String.prototype.endsWith`. -/
def jsEndsWith (s p : String) : Bool :=
  listStartsWith s.toList.reverse p.toList.reverse

/-- Drop the first `n` characters (JavaScript `slice(n)` on a code-point model). -/
def jsDrop (s : String) (n : Nat) : String :=
  String.mk (s.toList.drop n)

/-- Drop the last `n` characters (JavaScript `slice(0, -n)` on a code-point model). -/
def jsDropRight (s : String) (n : Nat) : String :=
  String.mk (s.toList.reverse.drop n |>.reverse)

/-- JavaScript `String.prototype.toUpperCase` (ASCII range, which covers the
markers the service matches on). -/
def jsToUpper (s : String) : String :=
  String.mk (s.toList.map fun c => if 'a' ≤ c ∧ c ≤ 'z' then Char.ofNat (c.toNat - 32) else c)

/-- Value of one hexadecimal digit. -/
def hexDigitVal (c : Char) : Option Nat :=
  if '0' ≤ c ∧ c ≤ '9' then some (c.toNat - '0'.toNat)
  else if 'a' ≤ c ∧ c ≤ 'f' then some (c.toNat - 'a'.toNat + 10)
  else if 'A' ≤ c ∧ c ≤ 'F' then some (c.toNat - 'A'.toNat + 10)
  else none

/-- Parse the body of a JSON string literal (after the opening quote),
returning the decoded content and the input remaining after the closing
quote. `\uXXXX` escapes outside the range `Char` can hold (lone surrogates)
decode to the default character, a harmless approximation for this
development. -/
def parseJString (fuel : Nat) (cs : List Char) : Option (String × List Char) :=
  match fuel, cs with
  | 0, _ => none
  | _ + 1, [] => none
  | fuel + 1, c :: cs =>
    if c = quoteChar then some ("", cs)
    else if c = '\\' then
      match cs with
      | [] => none
      | e :: cs2 =>
        if e = 'u' then
          match cs2 with
          | a :: b :: c3 :: d :: cs3 =>
            match hexDigitVal a, hexDigitVal b, hexDigitVal c3, hexDigitVal d with
            | some ha, some hb, some hc, some hd =>
              let code := ((ha * 16 + hb) * 16 + hc) * 16 + hd
              (parseJString fuel cs3).map fun p => (String.mk [Char.ofNat code] ++ p.1, p.2)
            | _, _, _, _ => none
          | _ => none
        else
          let esc : Option Char :=
            if e = quoteChar then some quoteChar
            else if e = '\\' then some '\\'
            else if e = '/' then some '/'
            else if e = 'b' then some (Char.ofNat 8)
            else if e = 'f' then some (Char.ofNat 12)
            else if e = 'n' then some '\n'
            else if e = 'r' then some '\r'
            else if e = 't' then some '\t'
            else none
          match esc with
          | some ch => (parseJString fuel cs2).map fun p => (String.mk [ch] ++ p.1, p.2)
          | none => none
    else if c.toNat < 32 then none
    else (parseJString fuel cs).map fun p => (String.mk [c] ++ p.1, p.2)

/-- Expect the given literal tail, returning the remaining input. -/
def litTail : List Char → List Char → Option (List Char)
  | cs, [] => some cs
  | [], _ :: _ => none
  | c :: cs, l :: ls => if c = l then litTail cs ls else none

/-- Numeric value of a digit string. -/
def digitsVal (ds : List Char) : Nat :=
  ds.foldl (fun a c => 10 * a + (c.toNat - '0'.toNat)) 0

/-- Parse a JSON number (sign, integer part with the leading-zero rule,
optional fraction, optional exponent) into a rational. -/
def parseNum (cs : List Char) : Option (JsonVal × List Char) :=
  let signSplit :=
    match cs with
    | c :: r => if c = '-' then (true, r) else (false, cs)
    | [] => (false, cs)
  let neg := signSplit.1
  let cs1 := signSplit.2
  let intSplit := cs1.span Char.isDigit
  let intDs := intSplit.1
  let cs2 := intSplit.2
  if intDs.isEmpty then none
  else if 2 ≤ intDs.length ∧ intDs.head? = some '0' then none
  else
    let fracStep : Option (List Char × List Char) :=
      match cs2 with
      | c :: r =>
        if c = '.' then
          let fs := r.span Char.isDigit
          if fs.1.isEmpty then none else some (fs.1, fs.2)
        else some ([], cs2)
      | [] => some ([], cs2)
    match fracStep with
    | none => none
    | some (fracDs, cs3) =>
      let expStep : Option (Bool × List Char × List Char) :=
        match cs3 with
        | c :: r =>
          if c = 'e' ∨ c = 'E' then
            let signE :=
              match r with
              | s :: r2 => if s = '-' then (true, r2) else if s = '+' then (false, r2) else (false, r)
              | [] => (false, r)
            let es := signE.2.span Char.isDigit
            if es.1.isEmpty then none else some (signE.1, es.1, es.2)
          else some (false, [], cs3)
        | [] => some (false, [], cs3)
      match expStep with
      | none => none
      | some (esign, expDs, cs4) =>
        let mantissa : ℚ := (digitsVal intDs : ℚ) + (digitsVal fracDs : ℚ) / (10 : ℚ) ^ fracDs.length
        let expVal : ℤ := if esign then -(digitsVal expDs : ℤ) else (digitsVal expDs : ℤ)
        let q : ℚ := (if neg then -mantissa else mantissa) * (10 : ℚ) ^ expVal
        some (JsonVal.num q, cs4)

/-- Parsing mode: a whole value, the members of an object being accumulated,
or the elements of an array being accumulated. -/
inductive PMode where
  | value
  | members (acc : List (String × JsonVal))
  | elems (acc : List JsonVal)

/-- Core recursive-descent JSON parser, structurally recursive on fuel so it
reduces inside the kernel. -/
def parseCore (fuel : Nat) (mode : PMode) (cs : List Char) : Option (JsonVal × List Char) :=
  match fuel with
  | 0 => none
  | f + 1 =>
    match mode with
    | PMode.value =>
      match skipWs cs with
      | [] => none
      | c :: rest =>
        if c = quoteChar then
          (parseJString (jsonStrFuel rest) rest).map fun p => (JsonVal.str p.1, p.2)
        else if c = braceL then
          match skipWs rest with
          | c2 :: rest2 =>
            if c2 = braceR then some (JsonVal.obj [], rest2)
            else parseCore f (PMode.members []) (skipWs rest)
          | [] => none
        else if c = '[' then
          match skipWs rest with
          | c2 :: rest2 =>
            if c2 = ']' then some (JsonVal.arr [], rest2)
            else parseCore f (PMode.elems []) (skipWs rest)
          | [] => none
        else if c = 't' then
          (litTail rest ['r', 'u', 'e']).map fun r => (JsonVal.bool true, r)
        else if c = 'f' then
          (litTail rest ['a', 'l', 's', 'e']).map fun r => (JsonVal.bool false, r)
        else if c = 'n' then
          (litTail rest ['u', 'l', 'l']).map fun r => (JsonVal.null, r)
        else parseNum (c :: rest)
    | PMode.members acc =>
      match skipWs cs with
      | [] => none
      | c :: rest =>
        if c = quoteChar then
          match parseJString (jsonStrFuel rest) rest with
          | none => none
          | some (k, cs2) =>
            match skipWs cs2 with
            | c2 :: cs3 =>
              if c2 = ':' then
                match parseCore f PMode.value cs3 with
                | none => none
                | some (v, cs4) =>
                  match skipWs cs4 with
                  | c3 :: cs5 =>
                    if c3 = ',' then parseCore f (PMode.members (acc ++ [(k, v)])) cs5
                    else if c3 = braceR then some (JsonVal.obj (acc ++ [(k, v)]), cs5)
                    else none
                  | [] => none
              else none
            | [] => none
        else none
    | PMode.elems acc =>
      match parseCore f PMode.value cs with
      | none => none
      | some (v, cs2) =>
        match skipWs cs2 with
        | c :: cs3 =>
          if c = ',' then parseCore f (PMode.elems (acc ++ [v])) cs3
          else if c = ']' then some (JsonVal.arr (acc ++ [v]), cs3)
          else none
        | [] => none
where
  /-- Fuel bound for a string literal body: its remaining input length suffices. -/
  jsonStrFuel (rest : List Char) : Nat := rest.length + 1

/-- Fuel bound for a whole document. -/
def jsonFuel (s : String) : Nat := 8 * s.length + 8

/-- Model of `JSON.parse`: either a value (with only whitespace allowed after
it) or a thrown `SyntaxError`, modelled as `Except.error`. -/
def jsonParse (s : String) : Except String JsonVal :=
  match parseCore (jsonFuel s) PMode.value s.toList with
  | some (v, rest) =>
    if (skipWs rest).isEmpty then Except.ok v
    else Except.error "SyntaxError: unexpected character after JSON value"
  | none => Except.error "SyntaxError: unexpected token in JSON"

/-- JavaScript property access `obj[key]` on a parsed JSON value: `none`
models `undefined`. For duplicate keys the last occurrence wins. -/
def getField (v : JsonVal) (key : String) : Option JsonVal :=
  match v with
  | JsonVal.obj fields => (fields.reverse.find? (fun p => p.1 == key)).map (fun p => p.2)
  | _ => none

/-- JavaScript truthiness of a possibly-undefined JSON value. -/
def truthy : Option JsonVal → Bool
  | none => false
  | some JsonVal.null => false
  | some (JsonVal.bool b) => b
  | some (JsonVal.num q) => q != 0
  | some (JsonVal.str s) => s != ""
  | some (JsonVal.arr _) => true
  | some (JsonVal.obj _) => true

/-- The capture group of the code-fence regular expression
of parseGeminiResponse, applied to the already-trimmed payload.
The pattern anchors a backtick fence at both ends with an optional
language tag; because the lazy middle group absorbs arbitrary characters and
the whitespace classes also match newlines, the successful-match condition is
exactly: fenced at both ends without overlap. The capture then equals the
inner content with surrounding whitespace stripped (the source additionally
trims the capture before use, which this normal form already absorbs). -/
def fenceCapture (s : String) : Option String :=
  if jsStartsWith s "```" ∧ jsEndsWith s "```" ∧ 6 ≤ s.length then
    let body := jsDrop s 3
    let body := if jsStartsWith body "json" then jsDrop body 4 else body
    some (jsTrim (jsDropRight body 3))
  else none

/-- The string actually handed to `JSON.parse` by `parseGeminiResponse`:
the payload trimmed, then fence-stripped when the fence matched with a
non-empty (hence truthy) capture. -/
def effectiveParserInput (responseText : String) : String :=
  let jsonStr := jsTrim responseText
  match fenceCapture jsonStr with
  | some captured => if captured ≠ "" then captured else jsonStr
  | none => jsonStr

/-- `parseGeminiResponse` from src/services/geminiService.ts: trim, strip a
code fence, `JSON.parse`, then require both `sceneDescription` and
`imagePrompt` to be truthy; every failure (including a thrown
`SyntaxError`) is caught and becomes `none`. The successful result is the
parsed object itself (the source merely casts it). -/
def parseGeminiResponse (responseText : String) : Option JsonVal :=
  match jsonParse (effectiveParserInput responseText) with
  | Except.ok parsed =>
    if truthy (getField parsed "sceneDescription") && truthy (getField parsed "imagePrompt")
    then some parsed else none
  | Except.error _ => none

/-! ## Circuit breaker, retry configuration and error classification -/

/-- Outcome of one `chat.sendMessage` call: resolved response text, or a
thrown error carrying its message. `ok ""` models a response whose `.text`
is empty or missing. -/
inductive CallOutcome where
  | ok (text : String)
  | err (message : String)
deriving Repr, DecidableEq

/-- Shape of the `RETRY_CONFIG` object. -/
structure RetryConfigShape where
  maxRetries : ℕ
  baseDelay : ℚ
  maxDelay : ℚ
  backoffFactor : ℚ

/-- `RETRY_CONFIG` from src/services/geminiService.ts. -/
def RETRY_CONFIG : RetryConfigShape where
  maxRetries := 3
  baseDelay := 1000
  maxDelay := 8000
  backoffFactor := 2

/-- Shape of the `CIRCUIT_BREAKER_CONFIG` object. -/
structure CircuitBreakerConfigShape where
  failureThreshold : ℕ
  resetTimeout : ℤ
  halfOpenRetryTimeout : ℤ

/-- `CIRCUIT_BREAKER_CONFIG` from src/services/geminiService.ts
(`halfOpenRetryTimeout` is declared but never read by the service). -/
def CIRCUIT_BREAKER_CONFIG : CircuitBreakerConfigShape where
  failureThreshold := 5
  resetTimeout := 30000
  halfOpenRetryTimeout := 10000

/-- The module-level `circuitBreakerState` record. -/
structure BreakerState where
  failures : ℕ
  lastFailureTime : ℤ
  isOpen : Bool
  openUntil : ℤ
deriving Repr, DecidableEq

/-- Initial value of `circuitBreakerState`. -/
def circuitBreakerInit : BreakerState where
  failures := 0
  lastFailureTime := 0
  isOpen := false
  openUntil := 0

/-- `checkCircuitBreaker`: returns the admission verdict together with the
(possibly reset) breaker state; `now` models the `Date.now()` reading. -/
def checkCircuitBreaker (now : ℤ) (st : BreakerState) : Bool × BreakerState :=
  if st.isOpen then
    if now > st.openUntil then
      (true, { st with isOpen := false, failures := 0 })
    else (false, st)
  else (true, st)

/-- `recordFailure`: increments the failure count and opens the breaker at
the threshold, stamping `openUntil = now + resetTimeout`. -/
def recordFailure (now : ℤ) (st : BreakerState) : BreakerState :=
  let st1 := { st with failures := st.failures + 1, lastFailureTime := now }
  if CIRCUIT_BREAKER_CONFIG.failureThreshold ≤ st1.failures then
    { st1 with isOpen := true, openUntil := now + CIRCUIT_BREAKER_CONFIG.resetTimeout }
  else st1

/-- `recordSuccess`: closes the breaker and zeroes the failure count. -/
def recordSuccess (st : BreakerState) : BreakerState :=
  { st with failures := 0, isOpen := false }

/-- The `error.message.includes("API key not valid")` test. -/
def isApiKeyInvalidError (m : String) : Bool :=
  strContains m "API key not valid"

/-- The `includes("429") && toUpperCase().includes("RESOURCE_EXHAUSTED")` test. -/
def isQuotaError (m : String) : Bool :=
  strContains m "429" && strContains (jsToUpper m) "RESOURCE_EXHAUSTED"

/-- The `isRetryableError` disjunction of transient markers. -/
def isRetryableError (m : String) : Bool :=
  strContains m "503" || strContains m "502" || strContains m "500" ||
  strContains m "UNAVAILABLE" || strContains m "overloaded" ||
  strContains m "temporarily unavailable"

/-- The narrower marker set that triggers the fallback-model attempt
(and selects the user-facing overload message on exhaustion). -/
def isOverloadMarker (m : String) : Bool :=
  strContains m "503" || strContains m "UNAVAILABLE" || strContains m "overloaded"

/-- Translated error message for an invalid API key. -/
def invalidApiKeyMessage : String :=
  "Invalid API Key. Please check your API_KEY environment variable."

/-- Translated error message for an exhausted text-generation quota. -/
def rateLimitMessage : String :=
  "RateLimitError: API quota exceeded for text generation. Please check your plan/billing or try again later."

/-- User-facing message when retries exhaust on an overload-marked error. -/
def overloadedServiceMessage : String :=
  "The Gemini AI service is currently overloaded. Please try again in a few minutes. If the problem persists, consider switching to a different model or checking Google AI Studio for service status."

/-- Terminal message when both primary and fallback are refused admission. -/
def bothUnavailableMessage : String :=
  "Both primary and fallback AI services are temporarily unavailable due to repeated failures. Please wait a moment and try again."

/-- The unreachable loop fall-through message. -/
def unknownErrorMessage : String :=
  "Unknown error occurred during retry attempts"

/-- Pre-jitter backoff delay for a given attempt index:
`min(baseDelay * backoffFactor ^ attempt, maxDelay)`. -/
def baseDelayFor (attempt : ℕ) : ℚ :=
  min (RETRY_CONFIG.baseDelay * RETRY_CONFIG.backoffFactor ^ attempt) RETRY_CONFIG.maxDelay

/-- Final delay: base delay plus jitter `r * 0.3 * base`, where `r` models
the `Math.random()` draw in `[0, 1)`. -/
def delayWithJitter (attempt : ℕ) (r : ℚ) : ℚ :=
  baseDelayFor attempt + r * (3 / 10) * baseDelayFor attempt

/-! ## The send-turn orchestrator -/

/-- Observable events of one run, in order: provider calls (tagged with
whether they went to the fallback-model session), fallback-session creation,
retry sleeps, the silent reset performed inside `checkCircuitBreaker` when an
expired open breaker admits a call, and the two explicit breaker mutations. -/
inductive TraceEvent where
  | providerCall (onFallbackModel : Bool) (outcome : CallOutcome)
  | createFallbackSession
  | sleep (ms : ℚ)
  | breakerAdmitReset
  | successRecorded
  | failureRecorded
deriving Repr, DecidableEq

/-- Result of a run: the value returned or error thrown, the final breaker
state, the event trace, and the next unconsumed index of the shared
`Math.random()` stream. -/
structure RunOut where
  result : Except String (Option JsonVal)
  breaker : BreakerState
  events : List TraceEvent
  rndNext : ℕ

/-- The retry loop of `sendMessageToGemini` for a call with
`useFallback = true` (so the fallback-escalation block is disabled).
`attempt` is the 0-indexed attempt; `remaining` is the structural loop bound
`maxRetries + 1 - attempt`, whose 0 case is the otherwise-unreachable
fall-through `throw lastError` after the `for` loop. -/
def retryLoopFB (now : ℤ) (st : BreakerState) (chat : ℕ → CallOutcome) (rnd : ℕ → ℚ)
    (rndIdx : ℕ) (attempt : ℕ) (remaining : ℕ) (lastError : Option String) : RunOut :=
  match remaining with
  | 0 => ⟨Except.error (lastError.getD unknownErrorMessage), st, [], rndIdx⟩
  | remaining + 1 =>
    match chat attempt with
    | CallOutcome.ok text =>
      if text = "" then
        ⟨Except.ok none, st, [TraceEvent.providerCall true (CallOutcome.ok text)], rndIdx⟩
      else
        ⟨Except.ok (parseGeminiResponse text), recordSuccess st,
          [TraceEvent.providerCall true (CallOutcome.ok text), TraceEvent.successRecorded], rndIdx⟩
    | CallOutcome.err m =>
      let callEv := TraceEvent.providerCall true (CallOutcome.err m)
      if isApiKeyInvalidError m then ⟨Except.error invalidApiKeyMessage, st, [callEv], rndIdx⟩
      else if isQuotaError m then ⟨Except.error rateLimitMessage, st, [callEv], rndIdx⟩
      else if !isRetryableError m then ⟨Except.error m, st, [callEv], rndIdx⟩
      else if attempt = RETRY_CONFIG.maxRetries then
        ⟨Except.error (if isOverloadMarker m then overloadedServiceMessage else m),
          recordFailure now st, [callEv, TraceEvent.failureRecorded], rndIdx⟩
      else
        let d := delayWithJitter attempt (rnd rndIdx)
        let rest := retryLoopFB now st chat rnd (rndIdx + 1) (attempt + 1) remaining (some m)
        ⟨rest.result, rest.breaker, callEv :: TraceEvent.sleep d :: rest.events, rest.rndNext⟩

/-- A `sendMessageToGemini` call with `useFallback = true`: admission check
followed by the fallback-mode retry loop on the given (fresh) session. -/
def sendMessageToGeminiFB (now : ℤ) (st : BreakerState) (chat : ℕ → CallOutcome)
    (rnd : ℕ → ℚ) (rndIdx : ℕ) : RunOut :=
  let adm := checkCircuitBreaker now st
  if adm.1 then
    let ev0 : List TraceEvent := if st.isOpen then [TraceEvent.breakerAdmitReset] else []
    let r := retryLoopFB now adm.2 chat rnd rndIdx 0 (RETRY_CONFIG.maxRetries + 1) none
    ⟨r.result, r.breaker, ev0 ++ r.events, r.rndNext⟩
  else ⟨Except.error bothUnavailableMessage, adm.2, [], rndIdx⟩

/-- The retry loop of `sendMessageToGemini` for a primary (`useFallback = false`)
call. On a first-attempt failure carrying an overload marker it performs the
fallback-model call (a fresh session, run through `sendMessageToGeminiFB`,
sharing the breaker state and the random stream); a fallback success is
returned outright, a fallback failure is swallowed and the loop continues. -/
def retryLoopPrimary (nowP nowFB : ℤ) (st : BreakerState) (chat fbChat : ℕ → CallOutcome)
    (rnd : ℕ → ℚ) (rndIdx : ℕ) (attempt : ℕ) (remaining : ℕ) (lastError : Option String) : RunOut :=
  match remaining with
  | 0 => ⟨Except.error (lastError.getD unknownErrorMessage), st, [], rndIdx⟩
  | remaining + 1 =>
    match chat attempt with
    | CallOutcome.ok text =>
      if text = "" then
        ⟨Except.ok none, st, [TraceEvent.providerCall false (CallOutcome.ok text)], rndIdx⟩
      else
        ⟨Except.ok (parseGeminiResponse text), recordSuccess st,
          [TraceEvent.providerCall false (CallOutcome.ok text), TraceEvent.successRecorded], rndIdx⟩
    | CallOutcome.err m =>
      let callEv := TraceEvent.providerCall false (CallOutcome.err m)
      if isApiKeyInvalidError m then ⟨Except.error invalidApiKeyMessage, st, [callEv], rndIdx⟩
      else if isQuotaError m then ⟨Except.error rateLimitMessage, st, [callEv], rndIdx⟩
      else if !isRetryableError m then ⟨Except.error m, st, [callEv], rndIdx⟩
      else
        let afterFallback : Sum RunOut (BreakerState × List TraceEvent × ℕ) :=
          if attempt = 0 ∧ isOverloadMarker m then
            let fbRun := sendMessageToGeminiFB nowFB st fbChat rnd rndIdx
            match fbRun.result with
            | Except.ok v =>
              Sum.inl ⟨Except.ok v, fbRun.breaker,
                callEv :: TraceEvent.createFallbackSession :: fbRun.events, fbRun.rndNext⟩
            | Except.error _ =>
              Sum.inr (fbRun.breaker,
                callEv :: TraceEvent.createFallbackSession :: fbRun.events, fbRun.rndNext)
          else Sum.inr (st, [callEv], rndIdx)
        match afterFallback with
        | Sum.inl out => out
        | Sum.inr (st2, evs2, ri2) =>
          if attempt = RETRY_CONFIG.maxRetries then
            ⟨Except.error (if isOverloadMarker m then overloadedServiceMessage else m),
              recordFailure nowP st2, evs2 ++ [TraceEvent.failureRecorded], ri2⟩
          else
            let d := delayWithJitter attempt (rnd ri2)
            let rest := retryLoopPrimary nowP nowFB st2 chat fbChat rnd (ri2 + 1) (attempt + 1)
              remaining (some m)
            ⟨rest.result, rest.breaker, evs2 ++ TraceEvent.sleep d :: rest.events, rest.rndNext⟩

/-- Top-level `sendMessageToGemini`. `nowP` is the clock reading for the
primary call's breaker operations, `nowFB` the one for the nested fallback
call; `chat` is the session passed in, `fbChat` the fresh fallback session
the call would create. -/
def sendMessageToGemini (nowP nowFB : ℤ) (st : BreakerState) (chat fbChat : ℕ → CallOutcome)
    (rnd : ℕ → ℚ) (rndIdx : ℕ) (useFallback : Bool) : RunOut :=
  if useFallback then sendMessageToGeminiFB nowP st chat rnd rndIdx
  else
    let adm := checkCircuitBreaker nowP st
    if adm.1 then
      let ev0 : List TraceEvent := if st.isOpen then [TraceEvent.breakerAdmitReset] else []
      let r := retryLoopPrimary nowP nowFB adm.2 chat fbChat rnd rndIdx 0
        (RETRY_CONFIG.maxRetries + 1) none
      ⟨r.result, r.breaker, ev0 ++ r.events, r.rndNext⟩
    else
      let r := sendMessageToGeminiFB nowFB adm.2 fbChat rnd rndIdx
      ⟨r.result, r.breaker, TraceEvent.createFallbackSession :: r.events, r.rndNext⟩

/-- Is the event a fallback-session creation? -/
def isFallbackCreateEv : TraceEvent → Bool
  | TraceEvent.createFallbackSession => true
  | _ => false

/-- Is the event a provider call? -/
def isProviderCallEv : TraceEvent → Bool
  | TraceEvent.providerCall _ _ => true
  | _ => false

/-- Is the event a retry sleep? -/
def isSleepEv : TraceEvent → Bool
  | TraceEvent.sleep _ => true
  | _ => false

/-- Is the event one of the two explicit breaker mutations
(`recordSuccess` / `recordFailure`)? -/
def isBreakerMutationEv : TraceEvent → Bool
  | TraceEvent.successRecorded => true
  | TraceEvent.failureRecorded => true
  | _ => false

/-- Count the events satisfying a predicate. -/
def countEv (p : TraceEvent → Bool) : List TraceEvent → ℕ
  | [] => 0
  | e :: evs => (if p e then 1 else 0) + countEv p evs


/-! ## The image request orchestrator -/

/-- The part of a `fetch` response `generateImageWithCloudflare` inspects:
the HTTP verdict and the JSON body (`Except.error` models a body on which
`response.json()` throws). -/
structure FetchResponse where
  ok : Bool
  status : ℕ
  statusText : String
  body : Except String JsonVal

mutual
/-- JavaScript string coercion of a JSON value, as used in the template
literal for the generic error message (numbers are rendered via `ℚ`,
an approximation irrelevant to the relay contract, whose detail field is a
string). -/
def jsToString : JsonVal → String
  | JsonVal.null => "null"
  | JsonVal.bool true => "true"
  | JsonVal.bool false => "false"
  | JsonVal.num q => toString q
  | JsonVal.str s => s
  | JsonVal.arr es => jsListToString es
  | JsonVal.obj _ => "[object Object]"

/-- JavaScript `Array.prototype.join(",")` rendering used by string coercion. -/
def jsListToString : List JsonVal → String
  | [] => ""
  | [JsonVal.null] => ""
  | [v] => jsToString v
  | JsonVal.null :: rest => "," ++ jsListToString rest
  | v :: rest => jsToString v ++ "," ++ jsListToString rest
end

/-- Message for a missing image-relay credential. -/
def cloudflareNotConfiguredMessage : String :=
  "Cloudflare API key is not configured"

/-- Message for HTTP 429 from the relay. -/
def cloudflareQuotaMessage : String :=
  "RateLimitError: Cloudflare API quota exceeded. Please check your plan/billing or try again later."

/-- Message for HTTP 401 from the relay. -/
def cloudflareInvalidKeyMessage : String :=
  "Invalid Cloudflare API Key. Please check your CLOUDFLARE_API_KEY environment variable."

/-- The interpolation `${errorData.error || ''}`. -/
def errorDetailText (errorData : JsonVal) : String :=
  match getField errorData "error" with
  | some v => if truthy (some v) then jsToString v else ""
  | none => ""

/-- The generic relay error message carrying status, status text and detail. -/
def cloudflareGenericMessage (status : ℕ) (statusText : String) (detail : String) : String :=
  "Cloudflare API error: " ++ toString status ++ " " ++ statusText ++ ". " ++ detail

/-- `generateImageWithCloudflare` from src/services/geminiService.ts, as a
function of the configured-credential flag and the relay's response. The
enclosing try/catch only logs and rethrows, so errors pass through unchanged. -/
def generateImageWithCloudflare (hasCloudflareKey : Bool) (resp : FetchResponse) :
    Except String (Option JsonVal) :=
  if !hasCloudflareKey then Except.error cloudflareNotConfiguredMessage
  else if !resp.ok then
    match resp.body with
    | Except.error e => Except.error e
    | Except.ok errorData =>
      if resp.status = 429 then Except.error cloudflareQuotaMessage
      else if resp.status = 401 then Except.error cloudflareInvalidKeyMessage
      else Except.error
        (cloudflareGenericMessage resp.status resp.statusText (errorDetailText errorData))
  else
    match resp.body with
    | Except.error e => Except.error e
    | Except.ok data => Except.ok (getField data "imageUrl")

/-! ## Concrete environments used by witnesses and counterexamples -/

/-- A degenerate `Math.random()` stream. -/
def rndZero : ℕ → ℚ := fun _ => 0

/-- A session that always fails with a 502 error: transient-classified but
outside the overload-marker set. -/
def chat502 : ℕ → CallOutcome := fun _ => CallOutcome.err "502 oops"

/-- A session that always fails with a 503 overload error. -/
def chat503 : ℕ → CallOutcome := fun _ => CallOutcome.err "503 overloaded"

/-- A session that always resolves with an empty response text. -/
def chatEmpty : ℕ → CallOutcome := fun _ => CallOutcome.ok ""

/-- A structurally valid payload with both required fields. -/
def goodPayload : String := "\x7b\"sceneDescription\":\"a\",\"imagePrompt\":\"b\"\x7d"

/-- A fallback session that fails once with a 503 error and then succeeds. -/
def fbMix : ℕ → CallOutcome := fun n =>
  if n = 0 then CallOutcome.err "503 x" else CallOutcome.ok goodPayload

/-- Is the event a provider call on the fallback-model session? -/
def isFallbackProviderCallEv : TraceEvent → Bool
  | TraceEvent.providerCall true _ => true
  | _ => false

/-- The breaker state left by one fully exhausted call against a 502-failing
session, started at clock `t`. -/
def breakerAfter502Turn (t : ℤ) (fbChat : ℕ → CallOutcome) (rnd : ℕ → ℚ)
    (st : BreakerState) : BreakerState :=
  (sendMessageToGemini t t st chat502 fbChat rnd 0 false).breaker

/-! ## Helper lemmas -/

/-- Counting distributes over appending traces. -/
theorem countEv_append (p : TraceEvent → Bool) (l1 l2 : List TraceEvent) :
    countEv p (l1 ++ l2) = countEv p l1 + countEv p l2 := by
  induction l1 with
  | nil => simp [countEv]
  | cons e l ih => simp [countEv, ih]; ring

/-- Every overload marker is in particular a retryable (transient) marker. -/
theorem overload_marker_retryable (m : String) (h : isOverloadMarker m = true) :
    isRetryableError m = true := by
  simp only [isOverloadMarker, Bool.or_eq_true] at h
  simp only [isRetryableError, Bool.or_eq_true]
  tauto

/-- The fallback-mode retry loop never creates a further fallback session. -/
theorem retryLoopFB_no_fbCreate (remaining : ℕ) :
    ∀ (now : ℤ) (st : BreakerState) (chat : ℕ → CallOutcome) (rnd : ℕ → ℚ)
      (ri attempt : ℕ) (lastErr : Option String),
      countEv isFallbackCreateEv (retryLoopFB now st chat rnd ri attempt remaining lastErr).events = 0 := by
  induction remaining with
  | zero =>
    intro now st chat rnd ri attempt lastErr
    simp [retryLoopFB, countEv]
  | succ n ih =>
    intro now st chat rnd ri attempt lastErr
    simp only [retryLoopFB]
    cases hc : chat attempt with
    | ok text =>
      by_cases ht : text = "" <;>
        simp [ht, countEv, isFallbackCreateEv]
    | err m =>
      by_cases h1 : isApiKeyInvalidError m <;>
        by_cases h2 : isQuotaError m <;>
          by_cases h3 : isRetryableError m <;>
            by_cases h4 : attempt = RETRY_CONFIG.maxRetries <;>
              simp [h1, h2, h3, h4, countEv, isFallbackCreateEv, ih]

/-- A `useFallback = true` call never creates a further fallback session. -/
theorem sendFB_no_fbCreate (now : ℤ) (st : BreakerState) (chat : ℕ → CallOutcome)
    (rnd : ℕ → ℚ) (ri : ℕ) :
    countEv isFallbackCreateEv (sendMessageToGeminiFB now st chat rnd ri).events = 0 := by
  simp only [sendMessageToGeminiFB]
  by_cases hAdm : (checkCircuitBreaker now st).1 <;>
    by_cases hOp : st.isOpen <;>
      simp [hAdm, hOp, countEv, countEv_append, isFallbackCreateEv, retryLoopFB_no_fbCreate]

/-- Past attempt index 0, the primary retry loop never creates a fallback
session either. -/
theorem retryLoopPrimary_no_fbCreate_pos (remaining : ℕ) :
    ∀ (nowP nowFB : ℤ) (st : BreakerState) (chat fbChat : ℕ → CallOutcome) (rnd : ℕ → ℚ)
      (ri attempt : ℕ) (lastErr : Option String), attempt ≠ 0 →
      countEv isFallbackCreateEv
        (retryLoopPrimary nowP nowFB st chat fbChat rnd ri attempt remaining lastErr).events = 0 := by
  induction remaining with
  | zero =>
    intro nowP nowFB st chat fbChat rnd ri attempt lastErr _
    simp [retryLoopPrimary, countEv]
  | succ n ih =>
    intro nowP nowFB st chat fbChat rnd ri attempt lastErr hA
    simp only [retryLoopPrimary]
    cases hc : chat attempt with
    | ok text =>
      by_cases ht : text = "" <;>
        simp [ht, countEv, isFallbackCreateEv]
    | err m =>
      have hno : ¬ (attempt = 0 ∧ isOverloadMarker m = true) := by
        intro hcontra
        exact hA hcontra.1
      have hih : ∀ ri2 : ℕ,
          countEv isFallbackCreateEv
            (retryLoopPrimary nowP nowFB st chat fbChat rnd ri2 (attempt + 1) n (some m)).events
            = 0 :=
        fun ri2 => ih nowP nowFB st chat fbChat rnd ri2 (attempt + 1) (some m) (Nat.succ_ne_zero _)
      have hm3 : RETRY_CONFIG.maxRetries = 3 := rfl
      by_cases h1 : isApiKeyInvalidError m <;>
        by_cases h2 : isQuotaError m <;>
          by_cases h3 : isRetryableError m <;>
            by_cases h4 : attempt = 3 <;>
              simp [h1, h2, h3, h4, hno, hm3, countEv, countEv_append, isFallbackCreateEv, hih]

/-! ## Claim C2: circuit-breaker auto-reset semantics -/

/-- C2 counterexample: with the breaker open, `openUntil = 100` and the clock
at 101, `checkCircuitBreaker` returns true AND has already transitioned the
state to closed before any probe outcome is recorded — and a second admission
check (still with no probe outcome recorded) returns true again. This
refutes both "returns true exactly once" and "returns to closed only after
that probe's outcome is recorded". -/
theorem claim2_counterexample :
    (checkCircuitBreaker 101 (BreakerState.mk 5 0 true 100)).1 = true ∧
    (checkCircuitBreaker 101 (BreakerState.mk 5 0 true 100)).2.isOpen = false ∧
    (checkCircuitBreaker 101 (BreakerState.mk 5 0 true 100)).2.failures = 0 ∧
    (checkCircuitBreaker 101 ((checkCircuitBreaker 101 (BreakerState.mk 5 0 true 100)).2)).1
      = true := by
  decide

/-- C2 amended: when the breaker is open and the clock has passed
`openUntil`, `checkCircuitBreaker` (admit) immediately transitions the state
to closed with zero failures and returns true; there is no half-open probe
state, so any subsequent admission check also returns true regardless of
whether a probe outcome has been recorded. -/
theorem claim2_breaker_reset_amended (st : BreakerState) (now now2 : ℤ)
    (hOpen : st.isOpen = true) (hPassed : now > st.openUntil) :
    checkCircuitBreaker now st = (true, { st with isOpen := false, failures := 0 }) ∧
    (checkCircuitBreaker now2 (checkCircuitBreaker now st).2).1 = true := by
  constructor
  · simp [checkCircuitBreaker, hOpen, hPassed]
  · simp [checkCircuitBreaker, hOpen, hPassed]

/-- Witness for the amended C2 at a concrete open state and clock. -/
theorem claim2_breaker_reset_amended_witness :
    checkCircuitBreaker 101 (BreakerState.mk 5 7 true 100) =
      (true, BreakerState.mk 0 7 false 100) ∧
    (checkCircuitBreaker 42 (checkCircuitBreaker 101 (BreakerState.mk 5 7 true 100)).2).1
      = true := by
  exact claim2_breaker_reset_amended (BreakerState.mk 5 7 true 100) 101 42 rfl (by decide)

/-! ## Claim C6: backoff delay and jitter bounds -/

/-- C6: for attempt index `n` the pre-jitter base delay equals
`min(1000 * 2^n, 8000)` — 1000, 2000, 4000, 8000 for n = 0..3 — and for a
jitter draw `r ∈ [0, 1)` the final delay lies in
`[baseDelay, 1.3 * baseDelay]`. -/
theorem claim6_backoff_delay (n : ℕ) (r : ℚ) (hr0 : 0 ≤ r) (hr1 : r < 1) :
    baseDelayFor n = min (1000 * 2 ^ n) 8000 ∧
    baseDelayFor 0 = 1000 ∧ baseDelayFor 1 = 2000 ∧
    baseDelayFor 2 = 4000 ∧ baseDelayFor 3 = 8000 ∧
    baseDelayFor n ≤ delayWithJitter n r ∧
    delayWithJitter n r ≤ 13 / 10 * baseDelayFor n := by
  have hbase : baseDelayFor n = min (1000 * 2 ^ n) 8000 := by
    simp [baseDelayFor, RETRY_CONFIG]
  have hpos : (0 : ℚ) < baseDelayFor n := by
    rw [hbase]
    have h2 : (0 : ℚ) < 1000 * 2 ^ n := by positivity
    exact lt_min h2 (by norm_num)
  have hval : ∀ k : ℕ, baseDelayFor k = min (1000 * 2 ^ k) 8000 := by
    intro k
    simp [baseDelayFor, RETRY_CONFIG]
  refine ⟨hbase, ?_, ?_, ?_, ?_, ?_, ?_⟩
  · rw [hval 0, min_def]
    norm_num
  · rw [hval 1, min_def]
    norm_num
  · rw [hval 2, min_def]
    norm_num
  · rw [hval 3, min_def]
    norm_num
  · have : 0 ≤ r * (3 / 10) * baseDelayFor n := by positivity
    simp only [delayWithJitter]
    linarith
  · simp only [delayWithJitter]
    nlinarith [hpos, hr0, hr1]

/-- Witness for C6 at `n = 2`, `r = 1/2`: base delay 4000, final delay 4600. -/
theorem claim6_backoff_delay_witness :
    baseDelayFor 2 = min (1000 * 2 ^ 2) 8000 ∧
    baseDelayFor 0 = 1000 ∧ baseDelayFor 1 = 2000 ∧
    baseDelayFor 2 = 4000 ∧ baseDelayFor 3 = 8000 ∧
    baseDelayFor 2 ≤ delayWithJitter 2 (1 / 2) ∧
    delayWithJitter 2 (1 / 2) ≤ 13 / 10 * baseDelayFor 2 := by
  exact claim6_backoff_delay 2 (1 / 2) (by norm_num) (by norm_num)

/-! ## Claim C9: shared breaker refuses primary and fallback in one turn -/

/-- C9: when the breaker is open and neither clock reading has passed
`openUntil`, a primary call is refused admission, recurses into the fallback
path, is refused again by the same process-wide breaker, and throws the
terminal "Both primary and fallback" error having made no provider call on
either model (its only event is the fallback-session creation). -/
theorem claim9_open_breaker_no_calls (nowP nowFB : ℤ) (st : BreakerState)
    (chat fbChat : ℕ → CallOutcome) (rnd : ℕ → ℚ) (ri : ℕ)
    (hOpen : st.isOpen = true) (h1 : ¬ nowP > st.openUntil) (h2 : ¬ nowFB > st.openUntil) :
    sendMessageToGemini nowP nowFB st chat fbChat rnd ri false =
      ⟨Except.error bothUnavailableMessage, st, [TraceEvent.createFallbackSession], ri⟩ ∧
    countEv isProviderCallEv
      (sendMessageToGemini nowP nowFB st chat fbChat rnd ri false).events = 0 := by
  have hrun : sendMessageToGemini nowP nowFB st chat fbChat rnd ri false =
      ⟨Except.error bothUnavailableMessage, st, [TraceEvent.createFallbackSession], ri⟩ := by
    simp [sendMessageToGemini, sendMessageToGeminiFB, checkCircuitBreaker, hOpen, h1, h2]
  refine ⟨hrun, ?_⟩
  rw [hrun]
  rfl

/-- Witness for C9: breaker opened until 30000, both checks at clock 100. -/
theorem claim9_open_breaker_no_calls_witness :
    sendMessageToGemini 100 100 (BreakerState.mk 5 0 true 30000) chat502 fbMix rndZero 0 false =
      ⟨Except.error bothUnavailableMessage, BreakerState.mk 5 0 true 30000,
        [TraceEvent.createFallbackSession], 0⟩ ∧
    countEv isProviderCallEv
      (sendMessageToGemini 100 100 (BreakerState.mk 5 0 true 30000)
        chat502 fbMix rndZero 0 false).events = 0 := by
  exact claim9_open_breaker_no_calls 100 100 (BreakerState.mk 5 0 true 30000)
    chat502 fbMix rndZero 0 rfl (by decide) (by decide)

/-! ## Claim C10: success resets the breaker before parsing -/

/-- C10: on a first-attempt provider success with non-empty text, the call
returns `parseGeminiResponse text` and the breaker has been reset to closed
with zero failures — for every text, hence in particular when the parser then
yields `none` for a structurally invalid payload. -/
theorem claim10_success_resets_before_parse (nowP nowFB : ℤ) (st : BreakerState)
    (chat fbChat : ℕ → CallOutcome) (rnd : ℕ → ℚ) (ri : ℕ) (t : String)
    (hClosed : st.isOpen = false) (h0 : chat 0 = CallOutcome.ok t) (hne : t ≠ "") :
    sendMessageToGemini nowP nowFB st chat fbChat rnd ri false =
      ⟨Except.ok (parseGeminiResponse t), recordSuccess st,
        [TraceEvent.providerCall false (CallOutcome.ok t), TraceEvent.successRecorded], ri⟩ ∧
    (sendMessageToGemini nowP nowFB st chat fbChat rnd ri false).breaker.failures = 0 ∧
    (sendMessageToGemini nowP nowFB st chat fbChat rnd ri false).breaker.isOpen = false := by
  have hrun : sendMessageToGemini nowP nowFB st chat fbChat rnd ri false =
      ⟨Except.ok (parseGeminiResponse t), recordSuccess st,
        [TraceEvent.providerCall false (CallOutcome.ok t), TraceEvent.successRecorded], ri⟩ := by
    simp [sendMessageToGemini, checkCircuitBreaker, hClosed, retryLoopPrimary, h0, hne]
  refine ⟨hrun, ?_, ?_⟩ <;> rw [hrun] <;> simp [recordSuccess]

/-- Witness for C10: the provider succeeds with a payload the parser rejects;
the caller gets `none` while the breaker (previously at 4 failures) is reset. -/
theorem claim10_success_resets_before_parse_witness :
    sendMessageToGemini 0 0 (BreakerState.mk 4 0 false 0)
        (fun _ => CallOutcome.ok "not json at all") fbMix rndZero 0 false =
      ⟨Except.ok none, BreakerState.mk 0 0 false 0,
        [TraceEvent.providerCall false (CallOutcome.ok "not json at all"),
          TraceEvent.successRecorded], 0⟩ ∧
    (sendMessageToGemini 0 0 (BreakerState.mk 4 0 false 0)
        (fun _ => CallOutcome.ok "not json at all") fbMix rndZero 0 false).breaker.failures = 0 ∧
    (sendMessageToGemini 0 0 (BreakerState.mk 4 0 false 0)
        (fun _ => CallOutcome.ok "not json at all") fbMix rndZero 0 false).breaker.isOpen
      = false := by
  have h := claim10_success_resets_before_parse 0 0 (BreakerState.mk 4 0 false 0)
    (fun _ => CallOutcome.ok "not json at all") fbMix rndZero 0 "not json at all"
    rfl rfl (by decide)
  refine ⟨?_, h.2.1, h.2.2⟩
  rw [h.1]
  rfl

/-! ## Claim C4: credential and quota errors propagate immediately -/

/-- C4: an attempt failing with an `InvalidCredentials`-classified
("API key not valid") or `QuotaExceeded`-classified (429 RESOURCE_EXHAUSTED)
error makes the loop throw the translated error at that very attempt — for
any attempt index at which it first occurs — consuming no further attempts,
and a whole call whose first attempt fails that way observes zero retry
delays, zero breaker mutations and exactly one provider call. -/
theorem claim4_policy_errors_immediate :
    (∀ (nowP nowFB : ℤ) (st : BreakerState) (chat fbChat : ℕ → CallOutcome) (rnd : ℕ → ℚ)
      (ri attempt rem : ℕ) (lastErr : Option String) (m : String),
      chat attempt = CallOutcome.err m →
      isApiKeyInvalidError m = true ∨ isApiKeyInvalidError m = false ∧ isQuotaError m = true →
      retryLoopPrimary nowP nowFB st chat fbChat rnd ri attempt (rem + 1) lastErr =
        ⟨Except.error
            (if isApiKeyInvalidError m then invalidApiKeyMessage else rateLimitMessage),
          st, [TraceEvent.providerCall false (CallOutcome.err m)], ri⟩) ∧
    (∀ (nowP nowFB : ℤ) (st : BreakerState) (chat fbChat : ℕ → CallOutcome) (rnd : ℕ → ℚ)
      (ri : ℕ) (m : String), st.isOpen = false → chat 0 = CallOutcome.err m →
      isApiKeyInvalidError m = true ∨ isApiKeyInvalidError m = false ∧ isQuotaError m = true →
      sendMessageToGemini nowP nowFB st chat fbChat rnd ri false =
        ⟨Except.error
            (if isApiKeyInvalidError m then invalidApiKeyMessage else rateLimitMessage),
          st, [TraceEvent.providerCall false (CallOutcome.err m)], ri⟩ ∧
      countEv isSleepEv (sendMessageToGemini nowP nowFB st chat fbChat rnd ri false).events = 0 ∧
      countEv isBreakerMutationEv
        (sendMessageToGemini nowP nowFB st chat fbChat rnd ri false).events = 0 ∧
      countEv isProviderCallEv
        (sendMessageToGemini nowP nowFB st chat fbChat rnd ri false).events = 1) := by
  have hloop : ∀ (nowP nowFB : ℤ) (st : BreakerState) (chat fbChat : ℕ → CallOutcome)
      (rnd : ℕ → ℚ) (ri attempt rem : ℕ) (lastErr : Option String) (m : String),
      chat attempt = CallOutcome.err m →
      isApiKeyInvalidError m = true ∨ isApiKeyInvalidError m = false ∧ isQuotaError m = true →
      retryLoopPrimary nowP nowFB st chat fbChat rnd ri attempt (rem + 1) lastErr =
        ⟨Except.error
            (if isApiKeyInvalidError m then invalidApiKeyMessage else rateLimitMessage),
          st, [TraceEvent.providerCall false (CallOutcome.err m)], ri⟩ := by
    intro nowP nowFB st chat fbChat rnd ri attempt rem lastErr m hc hcase
    rcases hcase with hA | ⟨hA, hQ⟩
    · simp [retryLoopPrimary, hc, hA]
    · simp [retryLoopPrimary, hc, hA, hQ]
  refine ⟨hloop, ?_⟩
  intro nowP nowFB st chat fbChat rnd ri m hClosed h0 hcase
  have hrun : sendMessageToGemini nowP nowFB st chat fbChat rnd ri false =
      ⟨Except.error
          (if isApiKeyInvalidError m then invalidApiKeyMessage else rateLimitMessage),
        st, [TraceEvent.providerCall false (CallOutcome.err m)], ri⟩ := by
    have hl := hloop nowP nowFB st chat fbChat rnd ri 0 RETRY_CONFIG.maxRetries none m h0 hcase
    simp [sendMessageToGemini, checkCircuitBreaker, hClosed, hl]
  refine ⟨hrun, ?_, ?_, ?_⟩ <;> rw [hrun] <;> rfl

/-- Witness for C4: a first-attempt "API key not valid" failure at the
initial breaker state propagates the translated message with one provider
call, no sleeps and no breaker mutation. -/
theorem claim4_policy_errors_immediate_witness :
    sendMessageToGemini 0 0 circuitBreakerInit
        (fun _ => CallOutcome.err "API key not valid.") fbMix rndZero 0 false =
      ⟨Except.error
          (if isApiKeyInvalidError "API key not valid." then invalidApiKeyMessage
            else rateLimitMessage),
        circuitBreakerInit,
        [TraceEvent.providerCall false (CallOutcome.err "API key not valid.")], 0⟩ ∧
    countEv isSleepEv (sendMessageToGemini 0 0 circuitBreakerInit
      (fun _ => CallOutcome.err "API key not valid.") fbMix rndZero 0 false).events = 0 ∧
    countEv isBreakerMutationEv (sendMessageToGemini 0 0 circuitBreakerInit
      (fun _ => CallOutcome.err "API key not valid.") fbMix rndZero 0 false).events = 0 ∧
    countEv isProviderCallEv (sendMessageToGemini 0 0 circuitBreakerInit
      (fun _ => CallOutcome.err "API key not valid.") fbMix rndZero 0 false).events = 1 := by
  exact claim4_policy_errors_immediate.2 0 0 circuitBreakerInit
    (fun _ => CallOutcome.err "API key not valid.") fbMix rndZero 0 "API key not valid."
    rfl rfl (Or.inl (by rfl))

/-! ## Claim C7: the response parser is total and strict -/

/-- C7: `parseGeminiResponse` (a total function — the catch converts every
thrown decode error to `none`) returns a value only when decoding the
trimmed, fence-stripped payload succeeds with both required keys truthy
(for string values: non-empty); every decode failure yields `none`, as do
the spec's two concrete examples. -/
theorem claim7_parser_total_and_strict :
    (∀ (s : String) (v : JsonVal), parseGeminiResponse s = some v →
      jsonParse (effectiveParserInput s) = Except.ok v ∧
      truthy (getField v "sceneDescription") = true ∧
      truthy (getField v "imagePrompt") = true ∧
      (∀ t, getField v "sceneDescription" = some (JsonVal.str t) → t ≠ "") ∧
      (∀ t, getField v "imagePrompt" = some (JsonVal.str t) → t ≠ "")) ∧
    (∀ (s e : String), jsonParse (effectiveParserInput s) = Except.error e →
      parseGeminiResponse s = none) ∧
    parseGeminiResponse "not json at all" = none ∧
    parseGeminiResponse "\x7b\"sceneText\":\"a\"\x7d" = none := by
  refine ⟨?_, ?_, rfl, rfl⟩
  · intro s v h
    unfold parseGeminiResponse at h
    cases heq : jsonParse (effectiveParserInput s) with
    | ok parsed =>
      simp only [heq] at h
      by_cases hcond : truthy (getField parsed "sceneDescription")
          && truthy (getField parsed "imagePrompt")
      · rw [if_pos hcond] at h
        obtain rfl : parsed = v := Option.some.inj h
        rw [Bool.and_eq_true] at hcond
        obtain ⟨h1, h2⟩ := hcond
        refine ⟨rfl, h1, h2, ?_, ?_⟩
        · intro t ht hemp
          rw [ht] at h1
          simp [truthy, hemp] at h1
        · intro t ht hemp
          rw [ht] at h2
          simp [truthy, hemp] at h2
      · rw [if_neg hcond] at h
        exact absurd h (by simp)
    | error e =>
      simp only [heq] at h
      exact absurd h (by simp)
  · intro s e he
    unfold parseGeminiResponse
    rw [he]

/-- Witness for C7: a payload carrying both required non-empty fields
decodes to the parsed object with both keys truthy. -/
theorem claim7_parser_total_and_strict_witness :
    jsonParse (effectiveParserInput goodPayload) =
      Except.ok (JsonVal.obj
        [("sceneDescription", JsonVal.str "a"), ("imagePrompt", JsonVal.str "b")]) ∧
    truthy (getField (JsonVal.obj
      [("sceneDescription", JsonVal.str "a"), ("imagePrompt", JsonVal.str "b")])
      "sceneDescription") = true ∧
    truthy (getField (JsonVal.obj
      [("sceneDescription", JsonVal.str "a"), ("imagePrompt", JsonVal.str "b")])
      "imagePrompt") = true := by
  have h := claim7_parser_total_and_strict.1 goodPayload
    (JsonVal.obj [("sceneDescription", JsonVal.str "a"), ("imagePrompt", JsonVal.str "b")])
    (by rfl)
  exact ⟨h.1, h.2.1, h.2.2.1⟩

/-! ## Claim C8: image relay outcome classification -/

/-- C8: with the credential configured, `generateImageWithCloudflare` maps a
non-success 429 to the quota error, a non-success 401 to the
invalid-credential error, any other non-success to the generic message
carrying status, status text and the relay-supplied detail, and a success to
the relay-supplied `imageUrl` field unchanged. -/
theorem claim8_image_relay_classification (resp : FetchResponse) :
    (resp.ok = false → resp.status = 429 → ∀ d, resp.body = Except.ok d →
      generateImageWithCloudflare true resp = Except.error cloudflareQuotaMessage) ∧
    (resp.ok = false → resp.status = 401 → ∀ d, resp.body = Except.ok d →
      generateImageWithCloudflare true resp = Except.error cloudflareInvalidKeyMessage) ∧
    (resp.ok = false → resp.status ≠ 429 → resp.status ≠ 401 → ∀ d, resp.body = Except.ok d →
      generateImageWithCloudflare true resp =
        Except.error (cloudflareGenericMessage resp.status resp.statusText (errorDetailText d))) ∧
    (resp.ok = true → ∀ d, resp.body = Except.ok d →
      generateImageWithCloudflare true resp = Except.ok (getField d "imageUrl")) := by
  obtain ⟨ok, status, statusText, body⟩ := resp
  refine ⟨?_, ?_, ?_, ?_⟩
  · intro hok hst d hbody
    subst hok hst
    simp only at hbody
    simp [generateImageWithCloudflare, hbody]
  · intro hok hst d hbody
    subst hok hst
    simp only at hbody
    simp [generateImageWithCloudflare, hbody]
  · intro hok h429 h401 d hbody
    subst hok
    simp only at hbody h429 h401
    simp [generateImageWithCloudflare, hbody, h429, h401]
  · intro hok d hbody
    subst hok
    simp only at hbody
    simp [generateImageWithCloudflare, hbody]

/-- Witness for C8: a 500 relay failure with a detail string produces the
generic message carrying status, status text and detail. -/
theorem claim8_image_relay_classification_witness :
    generateImageWithCloudflare true
        (FetchResponse.mk false 500 "Internal Server Error"
          (Except.ok (JsonVal.obj [("error", JsonVal.str "upstream down")]))) =
      Except.error (cloudflareGenericMessage 500 "Internal Server Error"
        (errorDetailText (JsonVal.obj [("error", JsonVal.str "upstream down")]))) := by
  exact (claim8_image_relay_classification
    (FetchResponse.mk false 500 "Internal Server Error"
      (Except.ok (JsonVal.obj [("error", JsonVal.str "upstream down")])))).2.2.1
    rfl (by decide) (by decide) _ rfl

/-! ## Unfolding lemmas for the primary retry loop -/

/-- With the breaker closed, the top-level call is the primary retry loop
started at attempt 0 with the full attempt budget. -/
theorem send_top_closed (nowP nowFB : ℤ) (st : BreakerState) (chat fbChat : ℕ → CallOutcome)
    (rnd : ℕ → ℚ) (ri : ℕ) (hClosed : st.isOpen = false) :
    sendMessageToGemini nowP nowFB st chat fbChat rnd ri false =
      retryLoopPrimary nowP nowFB st chat fbChat rnd ri 0 (RETRY_CONFIG.maxRetries + 1) none := by
  simp [sendMessageToGemini, checkCircuitBreaker, hClosed]

/-- One retryable, non-escalating, non-final iteration of the primary loop:
one provider call, one backoff sleep, then the loop continues. -/
theorem retryLoopPrimary_step_retry (nowP nowFB : ℤ) (st : BreakerState)
    (chat fbChat : ℕ → CallOutcome) (rnd : ℕ → ℚ) (ri attempt remaining rem : ℕ)
    (lastErr : Option String) (m : String) (hrem : remaining = rem + 1)
    (hc : chat attempt = CallOutcome.err m) (hak : isApiKeyInvalidError m = false)
    (hq : isQuotaError m = false) (hr : isRetryableError m = true)
    (hno : ¬ (attempt = 0 ∧ isOverloadMarker m = true))
    (hlast : attempt ≠ RETRY_CONFIG.maxRetries) :
    retryLoopPrimary nowP nowFB st chat fbChat rnd ri attempt remaining lastErr =
      ⟨(retryLoopPrimary nowP nowFB st chat fbChat rnd (ri + 1) (attempt + 1) rem (some m)).result,
        (retryLoopPrimary nowP nowFB st chat fbChat rnd (ri + 1) (attempt + 1) rem (some m)).breaker,
        TraceEvent.providerCall false (CallOutcome.err m)
          :: TraceEvent.sleep (delayWithJitter attempt (rnd ri))
          :: (retryLoopPrimary nowP nowFB st chat fbChat rnd (ri + 1) (attempt + 1) rem
                (some m)).events,
        (retryLoopPrimary nowP nowFB st chat fbChat rnd (ri + 1) (attempt + 1) rem
          (some m)).rndNext⟩ := by
  subst hrem
  simp [retryLoopPrimary, hc, hak, hq, hr, hno, hlast]

/-- The final iteration on a retryable non-escalating error: the provider
call, the breaker failure record, and the translated terminal error. -/
theorem retryLoopPrimary_step_exhaust (nowP nowFB : ℤ) (st : BreakerState)
    (chat fbChat : ℕ → CallOutcome) (rnd : ℕ → ℚ) (ri attempt remaining rem : ℕ)
    (lastErr : Option String) (m : String) (hrem : remaining = rem + 1)
    (hc : chat attempt = CallOutcome.err m) (hak : isApiKeyInvalidError m = false)
    (hq : isQuotaError m = false) (hr : isRetryableError m = true)
    (hno : ¬ (attempt = 0 ∧ isOverloadMarker m = true))
    (hlast : attempt = RETRY_CONFIG.maxRetries) :
    retryLoopPrimary nowP nowFB st chat fbChat rnd ri attempt remaining lastErr =
      ⟨Except.error (if isOverloadMarker m then overloadedServiceMessage else m),
        recordFailure nowP st,
        [TraceEvent.providerCall false (CallOutcome.err m), TraceEvent.failureRecorded], ri⟩ := by
  subst hrem
  subst hlast
  simp [retryLoopPrimary, hc, hak, hq, hr, hno]

/-- First-attempt overload escalation, fallback call returns: its result is
returned outright and the primary loop is never re-entered. -/
theorem retryLoopPrimary_step_fb_ok (nowP nowFB : ℤ) (st : BreakerState)
    (chat fbChat : ℕ → CallOutcome) (rnd : ℕ → ℚ) (ri remaining rem : ℕ)
    (lastErr : Option String) (m : String) (v : Option JsonVal)
    (hrem : remaining = rem + 1) (hc : chat 0 = CallOutcome.err m)
    (hak : isApiKeyInvalidError m = false) (hq : isQuotaError m = false)
    (hov : isOverloadMarker m = true)
    (hfb : (sendMessageToGeminiFB nowFB st fbChat rnd ri).result = Except.ok v) :
    retryLoopPrimary nowP nowFB st chat fbChat rnd ri 0 remaining lastErr =
      ⟨Except.ok v, (sendMessageToGeminiFB nowFB st fbChat rnd ri).breaker,
        TraceEvent.providerCall false (CallOutcome.err m)
          :: TraceEvent.createFallbackSession
          :: (sendMessageToGeminiFB nowFB st fbChat rnd ri).events,
        (sendMessageToGeminiFB nowFB st fbChat rnd ri).rndNext⟩ := by
  subst hrem
  have hr := overload_marker_retryable m hov
  simp [retryLoopPrimary, hc, hak, hq, hr, hov, hfb]

/-- First-attempt overload escalation, fallback call throws: its failure is
swallowed, its breaker mutations and random draws persist, and the primary
loop proceeds to its own backoff and attempt 1. -/
theorem retryLoopPrimary_step_fb_err (nowP nowFB : ℤ) (st : BreakerState)
    (chat fbChat : ℕ → CallOutcome) (rnd : ℕ → ℚ) (ri remaining rem : ℕ)
    (lastErr : Option String) (m e : String)
    (hrem : remaining = rem + 1) (hc : chat 0 = CallOutcome.err m)
    (hak : isApiKeyInvalidError m = false) (hq : isQuotaError m = false)
    (hov : isOverloadMarker m = true)
    (hfb : (sendMessageToGeminiFB nowFB st fbChat rnd ri).result = Except.error e) :
    retryLoopPrimary nowP nowFB st chat fbChat rnd ri 0 remaining lastErr =
      ⟨(retryLoopPrimary nowP nowFB (sendMessageToGeminiFB nowFB st fbChat rnd ri).breaker
          chat fbChat rnd ((sendMessageToGeminiFB nowFB st fbChat rnd ri).rndNext + 1) 1 rem
          (some m)).result,
        (retryLoopPrimary nowP nowFB (sendMessageToGeminiFB nowFB st fbChat rnd ri).breaker
          chat fbChat rnd ((sendMessageToGeminiFB nowFB st fbChat rnd ri).rndNext + 1) 1 rem
          (some m)).breaker,
        TraceEvent.providerCall false (CallOutcome.err m)
          :: TraceEvent.createFallbackSession
          :: ((sendMessageToGeminiFB nowFB st fbChat rnd ri).events
            ++ TraceEvent.sleep
                (delayWithJitter 0 (rnd (sendMessageToGeminiFB nowFB st fbChat rnd ri).rndNext))
              :: (retryLoopPrimary nowP nowFB
                    (sendMessageToGeminiFB nowFB st fbChat rnd ri).breaker chat fbChat rnd
                    ((sendMessageToGeminiFB nowFB st fbChat rnd ri).rndNext + 1) 1 rem
                    (some m)).events),
        (retryLoopPrimary nowP nowFB (sendMessageToGeminiFB nowFB st fbChat rnd ri).breaker
          chat fbChat rnd ((sendMessageToGeminiFB nowFB st fbChat rnd ri).rndNext + 1) 1 rem
          (some m)).rndNext⟩ := by
  subst hrem
  have hr := overload_marker_retryable m hov
  have hz : ¬ ((0 : ℕ) = RETRY_CONFIG.maxRetries) := by decide
  simp [retryLoopPrimary, hc, hak, hq, hr, hov, hfb, hz]

/-- Four consecutive retryable non-escalating failures exhaust the loop:
four provider calls, three sleeps, one failure record, and the terminal
error from the last message. -/
theorem retryLoopPrimary_exhaust4 (nowP nowFB : ℤ) (st : BreakerState)
    (chat fbChat : ℕ → CallOutcome) (rnd : ℕ → ℚ) (ri : ℕ) (ms : ℕ → String)
    (hc : ∀ i, chat i = CallOutcome.err (ms i))
    (hak : ∀ i, isApiKeyInvalidError (ms i) = false)
    (hq : ∀ i, isQuotaError (ms i) = false)
    (hr : ∀ i, isRetryableError (ms i) = true)
    (hov : ∀ i, isOverloadMarker (ms i) = false) :
    retryLoopPrimary nowP nowFB st chat fbChat rnd ri 0 (RETRY_CONFIG.maxRetries + 1) none =
      ⟨Except.error (ms 3), recordFailure nowP st,
        [TraceEvent.providerCall false (CallOutcome.err (ms 0)),
          TraceEvent.sleep (delayWithJitter 0 (rnd ri)),
          TraceEvent.providerCall false (CallOutcome.err (ms 1)),
          TraceEvent.sleep (delayWithJitter 1 (rnd (ri + 1))),
          TraceEvent.providerCall false (CallOutcome.err (ms 2)),
          TraceEvent.sleep (delayWithJitter 2 (rnd (ri + 1 + 1))),
          TraceEvent.providerCall false (CallOutcome.err (ms 3)),
          TraceEvent.failureRecorded],
        ri + 1 + 1 + 1⟩ := by
  have hno : ∀ i, ¬ (i = 0 ∧ isOverloadMarker (ms i) = true) := by
    intro i hcontra
    rw [hov i] at hcontra
    exact Bool.false_ne_true hcontra.2
  rw [retryLoopPrimary_step_retry nowP nowFB st chat fbChat rnd ri 0
      (RETRY_CONFIG.maxRetries + 1) RETRY_CONFIG.maxRetries none (ms 0) rfl (hc 0) (hak 0)
      (hq 0) (hr 0) (hno 0) (by decide)]
  rw [retryLoopPrimary_step_retry nowP nowFB st chat fbChat rnd (ri + 1) 1
      RETRY_CONFIG.maxRetries 2 (some (ms 0)) (ms 1) rfl (hc 1) (hak 1)
      (hq 1) (hr 1) (hno 1) (by decide)]
  rw [retryLoopPrimary_step_retry nowP nowFB st chat fbChat rnd (ri + 1 + 1) 2
      2 1 (some (ms 1)) (ms 2) rfl (hc 2) (hak 2) (hq 2) (hr 2) (hno 2) (by decide)]
  rw [retryLoopPrimary_step_exhaust nowP nowFB st chat fbChat rnd (ri + 1 + 1 + 1) 3
      1 0 (some (ms 2)) (ms 3) rfl (hc 3) (hak 3) (hq 3) (hr 3) (hno 3) (by decide)]
  simp [hov 3]

/-! ## Claim C1: fallback escalation on first-attempt overload -/

/-- C1 counterexample. First: a first-attempt "502" failure is
transient-unavailable-classified (retryable) yet triggers no fallback-model
call at all, refuting "every first-attempt transient failure triggers
exactly one fallback call". Second: on a genuine 503 overload the single
fallback-model call is not a single attempt — it performs two provider
calls on the fallback session before returning its result. -/
theorem claim1_counterexample :
    isRetryableError "502 oops" = true ∧
    countEv isFallbackCreateEv
      (sendMessageToGemini 0 0 circuitBreakerInit chat502 fbMix rndZero 0 false).events = 0 ∧
    countEv isFallbackCreateEv
      (sendMessageToGemini 0 0 circuitBreakerInit chat503 fbMix rndZero 0 false).events = 1 ∧
    countEv isFallbackProviderCallEv
      (sendMessageToGemini 0 0 circuitBreakerInit chat503 fbMix rndZero 0 false).events = 2 :=
  ⟨rfl, rfl, rfl, rfl⟩

/-- C1 amended: when, with the breaker closed, the first attempt fails with
an overload marker (503 / UNAVAILABLE / overloaded — a strict subset of the
transient classification) and the call is not already a fallback attempt,
exactly one fallback-model call is made (a fresh session run through the same
admission check and its own full retry loop, not a single attempt) before the
primary's retry loop resumes; if that call returns, its result is returned
and the primary loop is never re-entered, and if it throws, its failure is
swallowed — only its breaker mutations and random draws persist — and the
primary continues with its own backoff and full remaining budget. -/
theorem claim1_fallback_escalation_amended (nowP nowFB : ℤ) (st : BreakerState)
    (chat fbChat : ℕ → CallOutcome) (rnd : ℕ → ℚ) (ri : ℕ) (m : String)
    (hClosed : st.isOpen = false) (h0 : chat 0 = CallOutcome.err m)
    (hov : isOverloadMarker m = true) (hak : isApiKeyInvalidError m = false)
    (hq : isQuotaError m = false) :
    (∀ v, (sendMessageToGeminiFB nowFB st fbChat rnd ri).result = Except.ok v →
      sendMessageToGemini nowP nowFB st chat fbChat rnd ri false =
        ⟨Except.ok v, (sendMessageToGeminiFB nowFB st fbChat rnd ri).breaker,
          TraceEvent.providerCall false (CallOutcome.err m)
            :: TraceEvent.createFallbackSession
            :: (sendMessageToGeminiFB nowFB st fbChat rnd ri).events,
          (sendMessageToGeminiFB nowFB st fbChat rnd ri).rndNext⟩) ∧
    (∀ e, (sendMessageToGeminiFB nowFB st fbChat rnd ri).result = Except.error e →
      sendMessageToGemini nowP nowFB st chat fbChat rnd ri false =
        ⟨(retryLoopPrimary nowP nowFB (sendMessageToGeminiFB nowFB st fbChat rnd ri).breaker
            chat fbChat rnd ((sendMessageToGeminiFB nowFB st fbChat rnd ri).rndNext + 1) 1
            RETRY_CONFIG.maxRetries (some m)).result,
          (retryLoopPrimary nowP nowFB (sendMessageToGeminiFB nowFB st fbChat rnd ri).breaker
            chat fbChat rnd ((sendMessageToGeminiFB nowFB st fbChat rnd ri).rndNext + 1) 1
            RETRY_CONFIG.maxRetries (some m)).breaker,
          TraceEvent.providerCall false (CallOutcome.err m)
            :: TraceEvent.createFallbackSession
            :: ((sendMessageToGeminiFB nowFB st fbChat rnd ri).events
              ++ TraceEvent.sleep
                  (delayWithJitter 0 (rnd (sendMessageToGeminiFB nowFB st fbChat rnd ri).rndNext))
                :: (retryLoopPrimary nowP nowFB
                      (sendMessageToGeminiFB nowFB st fbChat rnd ri).breaker chat fbChat rnd
                      ((sendMessageToGeminiFB nowFB st fbChat rnd ri).rndNext + 1) 1
                      RETRY_CONFIG.maxRetries (some m)).events),
          (retryLoopPrimary nowP nowFB (sendMessageToGeminiFB nowFB st fbChat rnd ri).breaker
            chat fbChat rnd ((sendMessageToGeminiFB nowFB st fbChat rnd ri).rndNext + 1) 1
            RETRY_CONFIG.maxRetries (some m)).rndNext⟩) ∧
    countEv isFallbackCreateEv
      (sendMessageToGemini nowP nowFB st chat fbChat rnd ri false).events = 1 := by
  have htop := send_top_closed nowP nowFB st chat fbChat rnd ri hClosed
  refine ⟨?_, ?_, ?_⟩
  · intro v hfb
    rw [htop, retryLoopPrimary_step_fb_ok nowP nowFB st chat fbChat rnd ri
      (RETRY_CONFIG.maxRetries + 1) RETRY_CONFIG.maxRetries none m v rfl h0 hak hq hov hfb]
  · intro e hfb
    rw [htop, retryLoopPrimary_step_fb_err nowP nowFB st chat fbChat rnd ri
      (RETRY_CONFIG.maxRetries + 1) RETRY_CONFIG.maxRetries none m e rfl h0 hak hq hov hfb]
  · rw [htop]
    have hfbev := sendFB_no_fbCreate nowFB st fbChat rnd ri
    cases hfb : (sendMessageToGeminiFB nowFB st fbChat rnd ri).result with
    | ok v =>
      rw [retryLoopPrimary_step_fb_ok nowP nowFB st chat fbChat rnd ri
        (RETRY_CONFIG.maxRetries + 1) RETRY_CONFIG.maxRetries none m v rfl h0 hak hq hov hfb]
      simp [countEv, isFallbackCreateEv, hfbev]
    | error e =>
      rw [retryLoopPrimary_step_fb_err nowP nowFB st chat fbChat rnd ri
        (RETRY_CONFIG.maxRetries + 1) RETRY_CONFIG.maxRetries none m e rfl h0 hak hq hov hfb]
      have hrest := retryLoopPrimary_no_fbCreate_pos RETRY_CONFIG.maxRetries nowP nowFB
        (sendMessageToGeminiFB nowFB st fbChat rnd ri).breaker chat fbChat rnd
        ((sendMessageToGeminiFB nowFB st fbChat rnd ri).rndNext + 1) 1 (some m) one_ne_zero
      simp [countEv, countEv_append, isFallbackCreateEv, hfbev, hrest]

/-- Witness for the amended C1: a concrete 503 first-attempt failure with a
mixed-outcome fallback session creates exactly one fallback session. -/
theorem claim1_fallback_escalation_amended_witness :
    countEv isFallbackCreateEv
      (sendMessageToGemini 5 6 circuitBreakerInit chat503 fbMix rndZero 0 false).events = 1 :=
  (claim1_fallback_escalation_amended 5 6 circuitBreakerInit chat503 fbMix rndZero 0
    "503 overloaded" rfl rfl rfl rfl rfl).2.2

/-! ## Claim C3: breaker mutations per logical call -/

/-- C3 counterexample: the empty-payload completion path returns `none`
(no result) having mutated the circuit breaker zero times — not exactly
once as claimed. -/
theorem claim3_counterexample :
    (sendMessageToGemini 0 0 circuitBreakerInit chatEmpty fbMix rndZero 0 false).result
      = Except.ok none ∧
    countEv isBreakerMutationEv
      (sendMessageToGemini 0 0 circuitBreakerInit chatEmpty fbMix rndZero 0 false).events
      = 0 :=
  ⟨rfl, rfl⟩

/-- C3 amended: a turn mutates the breaker exactly once when it obtains a
non-empty payload (success reset) or exhausts its retry budget without
fallback escalation (failure record); it mutates it zero times on the
empty-payload path and when a non-retryable error propagates; and it mutates
it twice when its swallowed fallback sub-call itself exhausts before the
primary does. -/
theorem claim3_breaker_mutation_amended :
    (∀ (nowP nowFB : ℤ) (st : BreakerState) (chat fbChat : ℕ → CallOutcome) (rnd : ℕ → ℚ)
      (ri : ℕ) (t : String), st.isOpen = false → chat 0 = CallOutcome.ok t → t ≠ "" →
      countEv isBreakerMutationEv
        (sendMessageToGemini nowP nowFB st chat fbChat rnd ri false).events = 1) ∧
    (∀ (nowP nowFB : ℤ) (st : BreakerState) (chat fbChat : ℕ → CallOutcome) (rnd : ℕ → ℚ)
      (ri : ℕ), st.isOpen = false → chat 0 = CallOutcome.ok "" →
      countEv isBreakerMutationEv
        (sendMessageToGemini nowP nowFB st chat fbChat rnd ri false).events = 0 ∧
      (sendMessageToGemini nowP nowFB st chat fbChat rnd ri false).breaker = st) ∧
    (∀ (nowP nowFB : ℤ) (st : BreakerState) (chat fbChat : ℕ → CallOutcome) (rnd : ℕ → ℚ)
      (ri : ℕ) (m : String), st.isOpen = false → chat 0 = CallOutcome.err m →
      isApiKeyInvalidError m = false → isQuotaError m = false → isRetryableError m = false →
      countEv isBreakerMutationEv
        (sendMessageToGemini nowP nowFB st chat fbChat rnd ri false).events = 0 ∧
      (sendMessageToGemini nowP nowFB st chat fbChat rnd ri false).breaker = st) ∧
    (∀ (nowP nowFB : ℤ) (st : BreakerState) (chat fbChat : ℕ → CallOutcome) (rnd : ℕ → ℚ)
      (ri : ℕ) (ms : ℕ → String), st.isOpen = false →
      (∀ i, chat i = CallOutcome.err (ms i)) →
      (∀ i, isApiKeyInvalidError (ms i) = false) → (∀ i, isQuotaError (ms i) = false) →
      (∀ i, isRetryableError (ms i) = true) → (∀ i, isOverloadMarker (ms i) = false) →
      countEv isBreakerMutationEv
        (sendMessageToGemini nowP nowFB st chat fbChat rnd ri false).events = 1 ∧
      (sendMessageToGemini nowP nowFB st chat fbChat rnd ri false).breaker
        = recordFailure nowP st) ∧
    countEv isBreakerMutationEv
      (sendMessageToGemini 7 9 circuitBreakerInit chat503 chat503 rndZero 0 false).events
      = 2 := by
  refine ⟨?_, ?_, ?_, ?_, rfl⟩
  · intro nowP nowFB st chat fbChat rnd ri t hClosed h0 hne
    have hrun : sendMessageToGemini nowP nowFB st chat fbChat rnd ri false =
        ⟨Except.ok (parseGeminiResponse t), recordSuccess st,
          [TraceEvent.providerCall false (CallOutcome.ok t), TraceEvent.successRecorded], ri⟩ := by
      simp [sendMessageToGemini, checkCircuitBreaker, hClosed, retryLoopPrimary, h0, hne]
    rw [hrun]
    rfl
  · intro nowP nowFB st chat fbChat rnd ri hClosed h0
    have hrun : sendMessageToGemini nowP nowFB st chat fbChat rnd ri false =
        ⟨Except.ok none, st, [TraceEvent.providerCall false (CallOutcome.ok "")], ri⟩ := by
      simp [sendMessageToGemini, checkCircuitBreaker, hClosed, retryLoopPrimary, h0]
    rw [hrun]
    exact ⟨rfl, rfl⟩
  · intro nowP nowFB st chat fbChat rnd ri m hClosed h0 hak hq hr
    have hrun : sendMessageToGemini nowP nowFB st chat fbChat rnd ri false =
        ⟨Except.error m, st, [TraceEvent.providerCall false (CallOutcome.err m)], ri⟩ := by
      simp [sendMessageToGemini, checkCircuitBreaker, hClosed, retryLoopPrimary, h0, hak, hq, hr]
    rw [hrun]
    exact ⟨rfl, rfl⟩
  · intro nowP nowFB st chat fbChat rnd ri ms hClosed hc hak hq hr hov
    rw [send_top_closed nowP nowFB st chat fbChat rnd ri hClosed,
      retryLoopPrimary_exhaust4 nowP nowFB st chat fbChat rnd ri ms hc hak hq hr hov]
    exact ⟨rfl, rfl⟩

/-- Witness for the amended C3: a non-empty payload the parser rejects still
counts as exactly one breaker mutation (the success reset). -/
theorem claim3_breaker_mutation_amended_witness :
    countEv isBreakerMutationEv
      (sendMessageToGemini 0 0 circuitBreakerInit
        (fun _ => CallOutcome.ok "not json at all") fbMix rndZero 0 false).events = 1 :=
  claim3_breaker_mutation_amended.1 0 0 circuitBreakerInit
    (fun _ => CallOutcome.ok "not json at all") fbMix rndZero 0 "not json at all"
    rfl rfl (by decide)

/-! ## Claim C5: failure threshold opens the breaker; a sixth call is refused -/

/-- C5: `recordFailure` increments the count and stamps the failure time;
reaching the threshold of 5 opens the breaker with
`openUntil = now + 30000`, below it the open/until fields are untouched.
Five consecutive fully exhausted calls starting from the initial state leave
the breaker open as `⟨5, t5, true, t5 + 30000⟩`, and a sixth call made
before `openUntil` has passed throws the terminal unavailability error
without a single provider call. -/
theorem claim5_threshold_opens_breaker :
    (∀ (now : ℤ) (st : BreakerState),
      (recordFailure now st).failures = st.failures + 1 ∧
      (recordFailure now st).lastFailureTime = now ∧
      (CIRCUIT_BREAKER_CONFIG.failureThreshold ≤ st.failures + 1 →
        (recordFailure now st).isOpen = true ∧
        (recordFailure now st).openUntil = now + CIRCUIT_BREAKER_CONFIG.resetTimeout) ∧
      (st.failures + 1 < CIRCUIT_BREAKER_CONFIG.failureThreshold →
        (recordFailure now st).isOpen = st.isOpen ∧
        (recordFailure now st).openUntil = st.openUntil)) ∧
    (∀ (t1 t2 t3 t4 t5 t6 : ℤ) (fbChat chat6 fb6 : ℕ → CallOutcome) (rnd : ℕ → ℚ),
      t6 ≤ t5 + 30000 →
      breakerAfter502Turn t5 fbChat rnd (breakerAfter502Turn t4 fbChat rnd
        (breakerAfter502Turn t3 fbChat rnd (breakerAfter502Turn t2 fbChat rnd
          (breakerAfter502Turn t1 fbChat rnd circuitBreakerInit)))) =
        BreakerState.mk 5 t5 true (t5 + 30000) ∧
      (sendMessageToGemini t6 t6 (BreakerState.mk 5 t5 true (t5 + 30000)) chat6 fb6 rnd 0
        false).result = Except.error bothUnavailableMessage ∧
      countEv isProviderCallEv
        (sendMessageToGemini t6 t6 (BreakerState.mk 5 t5 true (t5 + 30000)) chat6 fb6 rnd 0
          false).events = 0) := by
  constructor
  · intro now st
    by_cases h5 : CIRCUIT_BREAKER_CONFIG.failureThreshold ≤ st.failures + 1
    · refine ⟨?_, ?_, fun _ => ⟨?_, ?_⟩, fun hlt => absurd h5 (by omega)⟩ <;>
        simp [recordFailure, h5]
    · refine ⟨?_, ?_, fun hge => absurd hge h5, fun _ => ⟨?_, ?_⟩⟩ <;>
        simp [recordFailure, h5]
  · intro t1 t2 t3 t4 t5 t6 fbChat chat6 fb6 rnd h6
    have hstep : ∀ (t : ℤ) (st : BreakerState), st.isOpen = false →
        breakerAfter502Turn t fbChat rnd st = recordFailure t st := by
      intro t st hClosed
      unfold breakerAfter502Turn
      rw [send_top_closed t t st chat502 fbChat rnd 0 hClosed,
        retryLoopPrimary_exhaust4 t t st chat502 fbChat rnd 0 (fun _ => "502 oops")
          (fun _ => rfl) (fun _ => rfl) (fun _ => rfl) (fun _ => rfl) (fun _ => rfl)]
    have hrf : ∀ (t : ℤ) (f : ℕ) (lt ou : ℤ), f + 1 < 5 →
        recordFailure t (BreakerState.mk f lt false ou) = BreakerState.mk (f + 1) t false ou := by
      intro t f lt ou hf
      have hnot : ¬ CIRCUIT_BREAKER_CONFIG.failureThreshold ≤
          (BreakerState.mk f lt false ou).failures + 1 := by
        simp only [CIRCUIT_BREAKER_CONFIG]
        omega
      simp [recordFailure, hnot]
    have h1 : breakerAfter502Turn t1 fbChat rnd circuitBreakerInit
        = BreakerState.mk 1 t1 false 0 := by
      rw [hstep t1 circuitBreakerInit rfl]
      exact hrf t1 0 0 0 (by omega)
    have h2 : breakerAfter502Turn t2 fbChat rnd (BreakerState.mk 1 t1 false 0)
        = BreakerState.mk 2 t2 false 0 := by
      rw [hstep t2 _ rfl]
      exact hrf t2 1 t1 0 (by omega)
    have h3 : breakerAfter502Turn t3 fbChat rnd (BreakerState.mk 2 t2 false 0)
        = BreakerState.mk 3 t3 false 0 := by
      rw [hstep t3 _ rfl]
      exact hrf t3 2 t2 0 (by omega)
    have h4 : breakerAfter502Turn t4 fbChat rnd (BreakerState.mk 3 t3 false 0)
        = BreakerState.mk 4 t4 false 0 := by
      rw [hstep t4 _ rfl]
      exact hrf t4 3 t3 0 (by omega)
    have h5 : breakerAfter502Turn t5 fbChat rnd (BreakerState.mk 4 t4 false 0)
        = BreakerState.mk 5 t5 true (t5 + 30000) := by
      rw [hstep t5 _ rfl]
      have hth : CIRCUIT_BREAKER_CONFIG.failureThreshold ≤
          (BreakerState.mk 4 t4 false 0).failures + 1 := by
        simp only [CIRCUIT_BREAKER_CONFIG]
        omega
      simp [recordFailure, hth, CIRCUIT_BREAKER_CONFIG]
    have hng : ¬ (t6 > (BreakerState.mk 5 t5 true (t5 + 30000)).openUntil) := by
      simp only
      omega
    have hrun : sendMessageToGemini t6 t6 (BreakerState.mk 5 t5 true (t5 + 30000))
        chat6 fb6 rnd 0 false =
        ⟨Except.error bothUnavailableMessage, BreakerState.mk 5 t5 true (t5 + 30000),
          [TraceEvent.createFallbackSession], 0⟩ := by
      simp [sendMessageToGemini, sendMessageToGeminiFB, checkCircuitBreaker, hng]
    refine ⟨?_, ?_, ?_⟩
    · rw [h1, h2, h3, h4, h5]
    · rw [hrun]
    · rw [hrun]
      rfl

/-- Witness for C5: concrete failure times 10..50 and a sixth call at 1000. -/
theorem claim5_threshold_opens_breaker_witness :
    breakerAfter502Turn 50 fbMix rndZero (breakerAfter502Turn 40 fbMix rndZero
      (breakerAfter502Turn 30 fbMix rndZero (breakerAfter502Turn 20 fbMix rndZero
        (breakerAfter502Turn 10 fbMix rndZero circuitBreakerInit)))) =
      BreakerState.mk 5 50 true (50 + 30000) ∧
    (sendMessageToGemini 1000 1000 (BreakerState.mk 5 50 true (50 + 30000))
      chat502 fbMix rndZero 0 false).result = Except.error bothUnavailableMessage ∧
    countEv isProviderCallEv
      (sendMessageToGemini 1000 1000 (BreakerState.mk 5 50 true (50 + 30000))
        chat502 fbMix rndZero 0 false).events = 0 :=
  claim5_threshold_opens_breaker.2 10 20 30 40 50 1000 fbMix chat502 fbMix rndZero (by decide)


end SimulatedSouls
